import Mathlib

/-!
Shallow embedding of the brainfork-server admission-and-metering core
(src/main.rs): privilege tiers, the tier-to-budget table, the credential
store adapter (SQLite table `authorizations`), credential resolution
(`FromRequest for AccessLevel`), credential issuance
(`handle_new_authorization` / `insert_api_key`), and the usage ledger
(`ServerCounts`) updated by `handle_interpretation`.

Machine integers: the target is 64-bit, so `usize`/`u64` values are
modelled as `Nat` reduced modulo `2^64` exactly where the Rust code can
overflow (the `AtomicU64::fetch_add` calls, which wrap). The external
execution engine (`forkengine::Runtime`) is out of scope per the design
and is passed in as an oracle function producing a `RuntimeProduct`.
A Rust panic (`Option::unwrap` on `None`) is modelled explicitly as the
`Except.error` alternative, so that panicking and returning are
distinguishable outcomes.
-/

namespace Brainfork

/-- The `usize`/`u64` modulus on the 64-bit target. -/
def U64MOD : Nat := 2 ^ 64

/-- `usize::max_value()` on the 64-bit target. -/
def USIZE_MAX : Nat := U64MOD - 1

/-- `static ADMIN_RUNTIME_LIMITS: (usize, usize) = (usize::max_value(), usize::max_value())`. -/
def ADMIN_RUNTIME_LIMITS : Nat × Nat := (USIZE_MAX, USIZE_MAX)

/-- `static DEVELOPER_RUNTIME_LIMITS: (usize, usize) = (10000, 128000)`. -/
def DEVELOPER_RUNTIME_LIMITS : Nat × Nat := (10000, 128000)

/-- `static BASIC_RUNTIME_LIMITS: (usize, usize) = (5000, 64000)`. -/
def BASIC_RUNTIME_LIMITS : Nat × Nat := (5000, 64000)

/-- `static DEFAULT_RUNTIME_LIMITS: (usize, usize) = (500, 32000)`. -/
def DEFAULT_RUNTIME_LIMITS : Nat × Nat := (500, 32000)

/-- The `AccessLevel` enum of src/main.rs. -/
inductive AccessLevel where
  | Administrator
  | Developer
  | Basic
  | Unauthenticated
deriving DecidableEq, Repr

/-- The explicit discriminants of the Rust enum:
`Administrator = 0, Developer = 1, Basic = 2, Unauthenticated = -1`. -/
def AccessLevel.discriminant : AccessLevel → Int
  | .Administrator => 0
  | .Developer => 1
  | .Basic => 2
  | .Unauthenticated => -1

/-- The `(access_level as u8)` cast performed by `insert_api_key`:
the discriminant reduced modulo 256 (so `Unauthenticated` maps to 255). -/
def AccessLevel.as_u8 (a : AccessLevel) : Nat :=
  (a.discriminant % 256).toNat

/-- `AccessLevel::from_access_byte`: decode a stored tier byte;
bytes outside {0, 1, 2} decode to `None`. -/
def AccessLevel.from_access_byte (value : Nat) : Option AccessLevel :=
  match value with
  | 0 => some .Administrator
  | 1 => some .Developer
  | 2 => some .Basic
  | _ => none

/-- `AccessLevel::get_runtime_limits`: the tier-to-budget table
`(execution_limit, memory_limit)`; the wildcard arm (hit only by
`Unauthenticated`) yields `DEFAULT_RUNTIME_LIMITS`. -/
def AccessLevel.get_runtime_limits : AccessLevel → Nat × Nat
  | .Administrator => ADMIN_RUNTIME_LIMITS
  | .Developer => DEVELOPER_RUNTIME_LIMITS
  | .Basic => BASIC_RUNTIME_LIMITS
  | _ => DEFAULT_RUNTIME_LIMITS

/-- One row of the SQLite `authorizations` table:
`(api_key CHAR(36) PRIMARY KEY, access_level SMALLINT, label VARCHAR(40))`.
The stored `access_level` is the raw byte written by `insert_api_key`. -/
structure KeyRecord where
  api_key : String
  access_level : Nat
  label : String
deriving DecidableEq, Repr

/-- The credential store state: the rows of the `authorizations` table,
in insertion order. -/
abbrev Store : Type := List KeyRecord

/-- `SQL_SELECT_KEY_ACCESS`:
`SELECT access_level FROM authorizations WHERE api_key = ? LIMIT 1` —
the stored byte of the first row matching the key, if any. -/
def sql_select_key_access (store : Store) (api_key : String) : Option Nat :=
  (store.find? (fun r => r.api_key = api_key)).map (fun r => r.access_level)

/-- `SQL_INSERT_KEY`: `INSERT INTO authorizations ... VALUES (?1, ?2, ?3)`.
Fails (constraint violation) when the key collides with the PRIMARY KEY
of an existing row; otherwise appends the new row. -/
def sql_insert_key (store : Store) (api_key : String) (access_level : Nat)
    (label : String) : Option Store :=
  if store.any (fun r => r.api_key = api_key) then none
  else some (store ++ [⟨api_key, access_level, label⟩])

/-- `get_access_level`: `conn.query_row(SQL_SELECT_KEY_ACCESS, [api_key],
|result| AccessLevel::from_access_byte(result.get(0)).unwrap()).ok()`.
No matching row makes `query_row` return an error, which `.ok()` turns
into `none`. A matching row runs the mapper, whose `.unwrap()` PANICS
when `from_access_byte` returns `None`; the panic is the `.error` case
(it propagates out of `query_row` instead of being caught by `.ok()`). -/
def get_access_level (store : Store) (api_key : String) :
    Except String (Option AccessLevel) :=
  match sql_select_key_access store api_key with
  | none => .ok none
  | some b =>
    match AccessLevel.from_access_byte b with
    | some level => .ok (some level)
    | none => .error "called Option::unwrap() on a None value"

/-- The HTTP statuses used by the resolver's failure outcomes. -/
inductive HttpStatus where
  | BadRequest
  | Unauthorized
  | ServiceUnavailable
deriving DecidableEq, Repr

/-- `request::Outcome<AccessLevel, ()>` as produced by the resolver:
success with a tier, or failure with an HTTP status. -/
inductive ResolveOutcome where
  | success (level : AccessLevel)
  | failure (status : HttpStatus)
deriving DecidableEq, Repr

/-- `<AccessLevel as FromRequest>::from_request`: `keys` is the list of
`X-Authentication` header values of the request; `pool` is `none` when
`pool.get()` fails (pool exhausted / connection failure) and
`some store` when a connection to the store is obtained. A panic inside
`get_access_level` propagates as `.error`. -/
def from_request (keys : List String) (pool : Option Store) :
    Except String ResolveOutcome :=
  if keys.length > 1 then
    .ok (.failure .BadRequest)
  else
    match keys.head? with
    | some api_key =>
      match pool with
      | some conn =>
        match get_access_level conn api_key with
        | .error msg => .error msg
        | .ok (some access_level) => .ok (.success access_level)
        | .ok none => .ok (.failure .Unauthorized)
      | none => .ok (.failure .ServiceUnavailable)
    | none => .ok (.success .Unauthenticated)

/-- `insert_api_key`: generate a fresh uuid-v4 key and insert
`(key, access_level as u8, label)`; `Ok` yields `Some(key)`, a database
error yields `None` and leaves the table unchanged. The generated key is
made explicit as the `key` argument (the uuid generator is the only
nondeterminism). Returns the result together with the resulting table. -/
def insert_api_key (store : Store) (key : String) (access_level : AccessLevel)
    (label : String) : Option String × Store :=
  match sql_insert_key store key access_level.as_u8 label with
  | some store2 => (some key, store2)
  | none => (none, store)

/-- The distinct response bodies of `handle_new_authorization`: the
`{"key": ...}` success body and the three `{"error_message": ...}`
failure bodies (not-authorized, unknown requested access level, failed
insert). The JSON rendering itself is transport boilerplate. -/
inductive AuthResponse where
  | newKey (key : String)
  | errNotAuthorized
  | errUnknownAccessLevel
  | errInsertFailed
deriving DecidableEq, Repr

/-- `handle_new_authorization`: the credential-issuance handler.
`access_level` is the caller's resolved tier, `freshKey` the uuid that
`insert_api_key` would generate. Non-Administrator callers are rejected
before anything else happens; then the requested level string must be
"developer" or "basic"; then the key is inserted. Returns the response
together with the resulting store. -/
def handle_new_authorization (store : Store) (freshKey : String)
    (requested_access_level label : String) (access_level : AccessLevel) :
    AuthResponse × Store :=
  if access_level ≠ AccessLevel.Administrator then
    (.errNotAuthorized, store)
  else
    match (match requested_access_level with
           | "developer" => some AccessLevel.Developer
           | "basic" => some AccessLevel.Basic
           | _ => none) with
    | none => (.errUnknownAccessLevel, store)
    | some access_requested =>
      match insert_api_key store freshKey access_requested label with
      | (some new_key, store2) => (.newKey new_key, store2)
      | (none, store2) => (.errInsertFailed, store2)

/-- One snapshot of the engine's execution trace, as consumed by
`product_to_response` (the engine's internals are out of scope). -/
structure RuntimeSnapshot where
  memory : List Nat
  memory_pointer : Nat
  instruction_pointer : Nat
  input_pointer : Nat
  output : List Nat
  is_error : Bool
  message : Option String
deriving DecidableEq, Repr

/-- `forkengine::RuntimeProduct`: trace, output bytes, instruction count
and elapsed nanoseconds of one engine run. -/
structure RuntimeProduct where
  snapshots : List RuntimeSnapshot
  output : List Nat
  executions : Nat
  time : Nat
deriving DecidableEq, Repr

/-- The external execution engine as an oracle:
`Runtime::with_limits(instructions, input, execution_limit, memory_limit).run()`. -/
def Engine : Type :=
  String → List Nat → Nat → Nat → RuntimeProduct

/-- `request.input.as_bytes().to_vec()`: the byte view of the input
string (code points; exact UTF-8 framing is a transport detail that the
oracle absorbs). -/
def strBytes (s : String) : List Nat :=
  s.data.map Char.toNat

/-- Render a byte list as a JSON array, as serde_json does. -/
def jsonNatList (l : List Nat) : String :=
  "[" ++ String.intercalate "," (l.map toString) ++ "]"

/-- Render an optional string as a JSON value (`null` when absent).
String escaping is a transport detail not relied upon by any claim. -/
def jsonOptString : Option String → String
  | none => "null"
  | some s => "\"" ++ s ++ "\""

/-- The serialized form of one snapshot object of the `json!` block in
`product_to_response`. -/
def snapshotToJson (s : RuntimeSnapshot) : String :=
  "\x7b\"memory\":" ++ jsonNatList s.memory ++
  ",\"memory_pointer\":" ++ toString s.memory_pointer ++
  ",\"instruction_pointer\":" ++ toString s.instruction_pointer ++
  ",\"input_pointer\":" ++ toString s.input_pointer ++
  ",\"output\":" ++ jsonNatList s.output ++
  ",\"is_error\":" ++ (if s.is_error then "true" else "false") ++
  ",\"message\":" ++ jsonOptString s.message ++ "\x7d"

/-- `product_to_response`: serialize the engine product to the JSON
response body `{snapshots, output, executions, time}`. The response is
its body string (`JSONResponse(String)`). -/
def product_to_response (product : RuntimeProduct) : String :=
  "\x7b\"snapshots\":[" ++
    String.intercalate "," (product.snapshots.map snapshotToJson) ++
  "],\"output\":" ++ jsonNatList product.output ++
  ",\"executions\":" ++ toString product.executions ++
  ",\"time\":" ++ toString product.time ++ "\x7d"

/-- `ServerCounts`: the five `AtomicU64` usage-ledger counters. Each
value is kept below `2^64`. -/
structure ServerCounts where
  requests_fufilled : Nat
  instructions : Nat
  runtime_ns : Nat
  bytes_returned : Nat
  status_hits : Nat
deriving DecidableEq, Repr

/-- `ServerCounts::new()`: all five counters start at zero. -/
def ServerCounts.new : ServerCounts :=
  ⟨0, 0, 0, 0, 0⟩

/-- `AtomicU64::fetch_add` wraps modulo `2^64`; this is the value of the
counter after the add. -/
def u64add (old amount : Nat) : Nat :=
  (old + amount) % U64MOD

/-- The body of `handle_interpretation` (the execution request handler):
derive the budget from the caller's tier, run the engine with it, add
instruction count and elapsed time to the ledger, serialize the product,
then add one fulfilled request and the response byte length. Returns the
response body and the updated ledger. -/
def handle_interpretation (engine : Engine) (instructions input : String)
    (access_level : AccessLevel) (server_counts : ServerCounts) :
    String × ServerCounts :=
  let limits := access_level.get_runtime_limits
  let product := engine instructions (strBytes input) limits.1 limits.2
  let counts1 : ServerCounts :=
    { server_counts with
      instructions := u64add server_counts.instructions product.executions
      runtime_ns := u64add server_counts.runtime_ns product.time }
  let response := product_to_response product
  let counts2 : ServerCounts :=
    { counts1 with
      requests_fufilled := u64add counts1.requests_fufilled 1
      bytes_returned := u64add counts1.bytes_returned response.length }
  (response, counts2)

/-- The full per-request pipeline for an execution request, as Rocket
runs it: the `FromRequest` guard for `AccessLevel` first; a guard
failure (or a panic inside it) short-circuits with the ledger untouched;
only a successful resolution invokes `handle_interpretation`. -/
inductive PipelineResult where
  | response (body : String)
  | guardFailure (status : HttpStatus)
  | panicked (msg : String)
deriving DecidableEq, Repr

/-- Process one execution request end to end: resolve the credential
headers, then on success run the handler against the ledger. -/
def processInterpretation (engine : Engine) (keys : List String)
    (pool : Option Store) (instructions input : String)
    (server_counts : ServerCounts) : PipelineResult × ServerCounts :=
  match from_request keys pool with
  | .error msg => (.panicked msg, server_counts)
  | .ok (.failure status) => (.guardFailure status, server_counts)
  | .ok (.success access_level) =>
    let r := handle_interpretation engine instructions input access_level server_counts
    (.response r.1, r.2)

/-- A sequence of non-overlapping `handle_interpretation` calls folded
over the ledger; each element carries one request's instruction text,
input and resolved tier. -/
def handleSeq (engine : Engine) (reqs : List (String × String × AccessLevel))
    (server_counts : ServerCounts) : ServerCounts :=
  reqs.foldl
    (fun c rq => (handle_interpretation engine rq.1 rq.2.1 rq.2.2 c).2)
    server_counts

/-- The amounts one `handle_interpretation` call passes to the four
`fetch_add` calls (and zero for the untouched status counter): one
fulfilled request, the engine's reported instruction count and elapsed
time, and the response body length. -/
def callDeltas (engine : Engine) (rq : String × String × AccessLevel) :
    ServerCounts :=
  let limits := rq.2.2.get_runtime_limits
  let product := engine rq.1 (strBytes rq.2.1) limits.1 limits.2
  ⟨1, product.executions, product.time,
    (product_to_response product).length, 0⟩

/-- Componentwise (exact, non-wrapping) addition of ledger values. -/
def ServerCounts.add (a b : ServerCounts) : ServerCounts :=
  ⟨a.requests_fufilled + b.requests_fufilled,
   a.instructions + b.instructions,
   a.runtime_ns + b.runtime_ns,
   a.bytes_returned + b.bytes_returned,
   a.status_hits + b.status_hits⟩

/-- Componentwise order on ledger values. -/
def ServerCounts.le (a b : ServerCounts) : Prop :=
  a.requests_fufilled ≤ b.requests_fufilled ∧
  a.instructions ≤ b.instructions ∧
  a.runtime_ns ≤ b.runtime_ns ∧
  a.bytes_returned ≤ b.bytes_returned ∧
  a.status_hits ≤ b.status_hits

instance (a b : ServerCounts) : Decidable (a.le b) := by
  unfold ServerCounts.le; infer_instance

/-- All five counters are representable in a `u64`. -/
def ServerCounts.inRange (a : ServerCounts) : Prop :=
  a.requests_fufilled < U64MOD ∧
  a.instructions < U64MOD ∧
  a.runtime_ns < U64MOD ∧
  a.bytes_returned < U64MOD ∧
  a.status_hits < U64MOD

instance (a : ServerCounts) : Decidable a.inRange := by
  unfold ServerCounts.inRange; infer_instance

/-- The exact componentwise sum of the per-call deltas of a sequence of
requests. -/
def sumDeltas (engine : Engine) (reqs : List (String × String × AccessLevel)) :
    ServerCounts :=
  reqs.foldr (fun rq acc => (callDeltas engine rq).add acc) ⟨0, 0, 0, 0, 0⟩

/-- A concrete trace-free engine used to instantiate the
oracle-parameterized theorems: every run reports the given instruction
count and elapsed time. -/
def constEngine (executions time : Nat) : Engine :=
  fun _ _ _ _ => ⟨[], [], executions, time⟩

/-! Shared lemmas used by several claim proofs. -/

/-- A row inserted by `sql_insert_key` under a key that did not collide
is found again by `sql_select_key_access`, with the byte that was
stored. -/
theorem sql_select_after_insert (store : Store) (key label : String) (b : Nat)
    (h : store.any (fun r => r.api_key = key) = false) :
    sql_select_key_access (store ++ [⟨key, b, label⟩]) key = some b := by
  have hnone : store.find? (fun r => r.api_key = key) = none := by
    rw [List.find?_eq_none]
    intro x hx
    have := List.any_eq_false.mp h x hx
    simpa using this
  unfold sql_select_key_access
  rw [List.find?_append, hnone]
  simp

/-- Successful `insert_api_key` inversion: success returns exactly the
generated key, implies the key was not already present, and appends the
record with the tier byte `access_level as u8`. -/
theorem insert_api_key_some (store : Store) (freshKey label : String)
    (t : AccessLevel) (key : String) (store2 : Store)
    (h : insert_api_key store freshKey t label = (some key, store2)) :
    key = freshKey ∧ store.any (fun r => r.api_key = freshKey) = false ∧
      store2 = store ++ [⟨freshKey, t.as_u8, label⟩] := by
  unfold insert_api_key sql_insert_key at h
  cases hb : store.any (fun r => r.api_key = freshKey) with
  | true => rw [hb] at h; simp at h
  | false =>
    rw [hb] at h
    simp at h
    exact ⟨h.1.symm, rfl, h.2.symm⟩

/-! Claim theorems and their witnesses. -/

/-- C5: a request presenting zero credentials resolves to
`Unauthenticated`, for every state of the connection pool — including
an unavailable one — so no store connection or lookup is involved. -/
theorem resolve_zero_credentials (pool : Option Store) :
    from_request [] pool = .ok (.success .Unauthenticated) := rfl

/-- C4: a request presenting two or more credentials is rejected with
the `BadRequest` failure (`MalformedCredentialPresentation`), for every
state of the connection pool and irrespective of the credentials'
individual validity. -/
theorem resolve_multiple_credentials (keys : List String) (pool : Option Store)
    (h : 2 ≤ keys.length) :
    from_request keys pool = .ok (.failure .BadRequest) := by
  unfold from_request
  rw [if_pos (by omega)]

/-- Witness for C4: two individually valid credentials are still
rejected with `BadRequest`. -/
theorem resolve_multiple_credentials_witness :
    from_request ["a", "b"] (some [⟨"a", 1, "x"⟩, ⟨"b", 2, "y"⟩]) =
      .ok (.failure .BadRequest) :=
  resolve_multiple_credentials ["a", "b"] (some [⟨"a", 1, "x"⟩, ⟨"b", 2, "y"⟩])
    (by decide)

/-- C6: with exactly one credential presented, a pool failure yields
`ServiceUnavailable` (`StoreUnavailable`), a lookup miss yields
`Unauthorized` (`UnrecognizedCredential`), a lookup hit whose stored
byte decodes yields the stored tier, and the two failures are distinct
values. -/
theorem resolve_single_credential (api_key : String) (store : Store) :
    from_request [api_key] none = .ok (.failure .ServiceUnavailable)
  ∧ (sql_select_key_access store api_key = none →
      from_request [api_key] (some store) = .ok (.failure .Unauthorized))
  ∧ (∀ b level, sql_select_key_access store api_key = some b →
      AccessLevel.from_access_byte b = some level →
      from_request [api_key] (some store) = .ok (.success level))
  ∧ HttpStatus.Unauthorized ≠ HttpStatus.ServiceUnavailable := by
  refine ⟨rfl, ?_, ?_, by decide⟩
  · intro h
    simp [from_request, get_access_level, h]
  · intro b level hb hlevel
    simp [from_request, get_access_level, hb, hlevel]

/-- Witness for C6: a stored `Basic` credential resolves to `Basic`; an
absent credential is rejected with `Unauthorized`. -/
theorem resolve_single_credential_witness :
    from_request ["k"] (some [⟨"k", 2, "lab"⟩]) = .ok (.success .Basic)
  ∧ from_request ["missing"] (some [⟨"k", 2, "lab"⟩]) =
      .ok (.failure .Unauthorized) :=
  ⟨(resolve_single_credential "k" [⟨"k", 2, "lab"⟩]).2.2.1 2 .Basic rfl rfl,
   (resolve_single_credential "missing" [⟨"k", 2, "lab"⟩]).2.1 rfl⟩

/-- C1 (failing-input evidence): a stored record whose tier byte is 3 —
outside the recognized set — decodes to `none`, and the lookup then hits
the `.unwrap()` and PANICS (`.error`), instead of returning absence; the
panic propagates out of resolution, so no rejection value is produced. -/
theorem unrecognized_tier_byte_panics :
    AccessLevel.from_access_byte 3 = none
  ∧ get_access_level [⟨"some-key", 3, "corrupt"⟩] "some-key" =
      .error "called Option::unwrap() on a None value"
  ∧ from_request ["some-key"] (some [⟨"some-key", 3, "corrupt"⟩]) =
      .error "called Option::unwrap() on a None value" :=
  ⟨rfl, rfl, rfl⟩

/-- C7: the budget table is componentwise monotone in privilege —
Administrator ≥ Developer ≥ Basic ≥ Unauthenticated in both the
instruction and the memory ceiling — and the `Unauthenticated` row is
the default budget. Totality over the four variants is by construction
of `AccessLevel.get_runtime_limits`. -/
theorem budget_table_monotone :
    ((AccessLevel.get_runtime_limits .Developer).1 ≤
        (AccessLevel.get_runtime_limits .Administrator).1
  ∧ (AccessLevel.get_runtime_limits .Basic).1 ≤
        (AccessLevel.get_runtime_limits .Developer).1
  ∧ (AccessLevel.get_runtime_limits .Unauthenticated).1 ≤
        (AccessLevel.get_runtime_limits .Basic).1)
  ∧ ((AccessLevel.get_runtime_limits .Developer).2 ≤
        (AccessLevel.get_runtime_limits .Administrator).2
  ∧ (AccessLevel.get_runtime_limits .Basic).2 ≤
        (AccessLevel.get_runtime_limits .Developer).2
  ∧ (AccessLevel.get_runtime_limits .Unauthenticated).2 ≤
        (AccessLevel.get_runtime_limits .Basic).2)
  ∧ AccessLevel.get_runtime_limits .Unauthenticated = DEFAULT_RUNTIME_LIMITS := by
  refine ⟨⟨?_, by decide, by decide⟩, ⟨?_, by decide, by decide⟩, rfl⟩ <;> decide

/-- C10: the Administrator budget is `(usize::MAX, usize::MAX)` in both
components, while every other tier's ceilings are strictly below
`usize::MAX` (finite configured constants). -/
theorem admin_budget_is_usize_max :
    AccessLevel.get_runtime_limits .Administrator = (USIZE_MAX, USIZE_MAX)
  ∧ ((AccessLevel.get_runtime_limits .Developer).1 < USIZE_MAX
      ∧ (AccessLevel.get_runtime_limits .Developer).2 < USIZE_MAX)
  ∧ ((AccessLevel.get_runtime_limits .Basic).1 < USIZE_MAX
      ∧ (AccessLevel.get_runtime_limits .Basic).2 < USIZE_MAX)
  ∧ ((AccessLevel.get_runtime_limits .Unauthenticated).1 < USIZE_MAX
      ∧ (AccessLevel.get_runtime_limits .Unauthenticated).2 < USIZE_MAX) := by
  refine ⟨rfl, by decide, by decide, by decide⟩

/-- C3: a caller whose tier is not `Administrator` gets the
not-authorized rejection, the store is returned unchanged (no insert is
executed), and the outcome does not depend on the generated key —
the rejection happens before any credential is generated. -/
theorem issue_non_admin_rejected (caller : AccessLevel)
    (hcaller : caller ≠ .Administrator) (store : Store)
    (freshKey freshKey2 requested label : String) :
    handle_new_authorization store freshKey requested label caller =
      (.errNotAuthorized, store)
  ∧ handle_new_authorization store freshKey requested label caller =
      handle_new_authorization store freshKey2 requested label caller := by
  have h1 : ∀ fk : String,
      handle_new_authorization store fk requested label caller =
        (.errNotAuthorized, store) := by
    intro fk
    unfold handle_new_authorization
    rw [if_pos hcaller]
  exact ⟨h1 freshKey, (h1 freshKey).trans (h1 freshKey2).symm⟩

/-- Witness for C3: a `Basic` caller requesting a developer credential
is rejected and the store (one existing admin row) is untouched. -/
theorem issue_non_admin_rejected_witness :
    handle_new_authorization [⟨"root-key", 0, "root"⟩] "fresh-uuid"
        "developer" "lab" .Basic =
      (.errNotAuthorized, [⟨"root-key", 0, "root"⟩]) :=
  (issue_non_admin_rejected .Basic (by decide) [⟨"root-key", 0, "root"⟩]
    "fresh-uuid" "other-uuid" "developer" "lab").1

/-- Reduction of the issuance handler for an Administrator caller and
the literal requested level "developer". -/
theorem handle_new_auth_admin_developer (store : Store) (freshKey label : String) :
    handle_new_authorization store freshKey "developer" label .Administrator =
      (match insert_api_key store freshKey .Developer label with
       | (some new_key, store2) => (.newKey new_key, store2)
       | (none, store2) => (.errInsertFailed, store2)) := rfl

/-- Reduction of the issuance handler for an Administrator caller and
the literal requested level "basic". -/
theorem handle_new_auth_admin_basic (store : Store) (freshKey label : String) :
    handle_new_authorization store freshKey "basic" label .Administrator =
      (match insert_api_key store freshKey .Basic label with
       | (some new_key, store2) => (.newKey new_key, store2)
       | (none, store2) => (.errInsertFailed, store2)) := rfl

/-- C2: issuance/resolution round trip. If an Administrator caller
issues a credential for an issuable tier (requested level "developer" ↦
`Developer`, "basic" ↦ `Basic`) and the handler returns a key, then
resolving a request presenting exactly that key against the resulting
store yields exactly the requested tier; moreover the byte-to-tier
decoding used by lookup inverts the tier-to-byte encoding used by
insert on that tier. -/
theorem issue_resolve_round_trip (requested : String) (tier : AccessLevel)
    (hreq : (requested = "developer" ∧ tier = .Developer) ∨
            (requested = "basic" ∧ tier = .Basic))
    (store : Store) (freshKey label key : String) (store2 : Store)
    (hissue : handle_new_authorization store freshKey requested label
        .Administrator = (.newKey key, store2)) :
    from_request [key] (some store2) = .ok (.success tier)
  ∧ AccessLevel.from_access_byte tier.as_u8 = some tier := by
  have hbyte : AccessLevel.from_access_byte tier.as_u8 = some tier := by
    rcases hreq with ⟨_, ht⟩ | ⟨_, ht⟩ <;> subst ht <;> rfl
  have main : insert_api_key store freshKey tier label = (some key, store2) := by
    rcases hreq with ⟨hr, ht⟩ | ⟨hr, ht⟩ <;> subst hr <;> subst ht
    · rw [handle_new_auth_admin_developer] at hissue
      rcases hins : insert_api_key store freshKey .Developer label with ⟨res, st2⟩
      rw [hins] at hissue
      cases res with
      | none => simp at hissue
      | some nk =>
        simp at hissue
        rw [hissue.1, hissue.2]
    · rw [handle_new_auth_admin_basic] at hissue
      rcases hins : insert_api_key store freshKey .Basic label with ⟨res, st2⟩
      rw [hins] at hissue
      cases res with
      | none => simp at hissue
      | some nk =>
        simp at hissue
        rw [hissue.1, hissue.2]
  obtain ⟨hk, hcol, hst⟩ :=
    insert_api_key_some store freshKey label tier key store2 main
  subst hst
  subst hk
  have hsel := sql_select_after_insert store key label tier.as_u8 hcol
  refine ⟨?_, hbyte⟩
  simp [from_request, get_access_level, hsel, hbyte]

/-- Witness for C2: issuing a developer credential into an empty store
and resolving it yields `Developer`. -/
theorem issue_resolve_round_trip_witness :
    from_request ["fresh-uuid"] (some [⟨"fresh-uuid", 1, "lab"⟩]) =
      .ok (.success .Developer)
  ∧ AccessLevel.from_access_byte AccessLevel.Developer.as_u8 =
      some .Developer :=
  issue_resolve_round_trip "developer" .Developer (Or.inl ⟨rfl, rfl⟩)
    [] "fresh-uuid" "lab" "fresh-uuid" [⟨"fresh-uuid", 1, "lab"⟩] rfl

/-- C8: credential resolution never mutates the usage ledger. For every
rejected resolution — guard failure of any status, or a panic inside
the guard — the request pipeline returns the ledger exactly as it was;
and on successful resolution the pipeline's entire ledger change is the
one performed by `handle_interpretation` after the engine completes
(resolution itself contributes none: `from_request` does not touch the
counters). -/
theorem resolution_preserves_ledger (engine : Engine) (keys : List String)
    (pool : Option Store) (instructions input : String) (c : ServerCounts) :
    (∀ status, from_request keys pool = .ok (.failure status) →
      (processInterpretation engine keys pool instructions input c).2 = c)
  ∧ (∀ msg, from_request keys pool = .error msg →
      (processInterpretation engine keys pool instructions input c).2 = c)
  ∧ (∀ level, from_request keys pool = .ok (.success level) →
      processInterpretation engine keys pool instructions input c =
        (.response (handle_interpretation engine instructions input level c).1,
         (handle_interpretation engine instructions input level c).2)) := by
  refine ⟨?_, ?_, ?_⟩ <;> intro x hx <;>
    simp [processInterpretation, hx]

/-- Witness for C8: the unresolvable credential "not-a-real-key" is
rejected and a concrete ledger is returned unchanged. -/
theorem resolution_preserves_ledger_witness :
    (processInterpretation (constEngine 0 0) ["not-a-real-key"] (some [])
      "" "" ⟨5, 6, 7, 8, 9⟩).2 = ⟨5, 6, 7, 8, 9⟩ :=
  (resolution_preserves_ledger (constEngine 0 0) ["not-a-real-key"] (some [])
    "" "" ⟨5, 6, 7, 8, 9⟩).1 .Unauthorized rfl

/-- The exact shape of one `handle_interpretation` ledger update: each
of the four touched counters receives one wrapping `fetch_add` of its
per-call delta, and the status counter is untouched. -/
theorem handle_interpretation_counts (engine : Engine) (i inp : String)
    (lvl : AccessLevel) (c : ServerCounts) :
    (handle_interpretation engine i inp lvl c).2 =
      ⟨u64add c.requests_fufilled (callDeltas engine (i, inp, lvl)).requests_fufilled,
       u64add c.instructions (callDeltas engine (i, inp, lvl)).instructions,
       u64add c.runtime_ns (callDeltas engine (i, inp, lvl)).runtime_ns,
       u64add c.bytes_returned (callDeltas engine (i, inp, lvl)).bytes_returned,
       c.status_hits⟩ := rfl

/-- When no counter wraps, one `handle_interpretation` call adds its
deltas exactly. -/
theorem handle_interpretation_no_wrap (engine : Engine) (i inp : String)
    (lvl : AccessLevel) (c : ServerCounts)
    (h : (c.add (callDeltas engine (i, inp, lvl))).inRange) :
    (handle_interpretation engine i inp lvl c).2 =
      c.add (callDeltas engine (i, inp, lvl)) := by
  unfold ServerCounts.add ServerCounts.inRange at h
  simp only at h
  obtain ⟨h1, h2, h3, h4, _⟩ := h
  rw [handle_interpretation_counts]
  unfold ServerCounts.add u64add
  rw [Nat.mod_eq_of_lt h1, Nat.mod_eq_of_lt h2, Nat.mod_eq_of_lt h3,
    Nat.mod_eq_of_lt h4]
  simp [callDeltas]

/-- Componentwise addition of ledger values is associative. -/
theorem ServerCounts.add_assoc (a b c : ServerCounts) :
    (a.add b).add c = a.add (b.add c) := by
  unfold ServerCounts.add
  simp [Nat.add_assoc]

/-- Adding deltas only grows a ledger value componentwise. -/
theorem ServerCounts.le_add (a b : ServerCounts) : a.le (a.add b) := by
  unfold ServerCounts.le ServerCounts.add
  refine ⟨?_, ?_, ?_, ?_, ?_⟩ <;> exact Nat.le_add_right _ _

/-- The zero-initialized ledger is a left unit for addition. -/
theorem ServerCounts.new_add (a : ServerCounts) : ServerCounts.new.add a = a := by
  unfold ServerCounts.new ServerCounts.add
  simp

/-- A summand of an in-range sum is in range. -/
theorem ServerCounts.inRange_of_add (a b : ServerCounts)
    (h : (a.add b).inRange) : a.inRange := by
  unfold ServerCounts.add ServerCounts.inRange at h
  unfold ServerCounts.inRange
  simp only at h
  obtain ⟨h1, h2, h3, h4, h5⟩ := h
  exact ⟨Nat.lt_of_le_of_lt (Nat.le_add_right _ _) h1,
         Nat.lt_of_le_of_lt (Nat.le_add_right _ _) h2,
         Nat.lt_of_le_of_lt (Nat.le_add_right _ _) h3,
         Nat.lt_of_le_of_lt (Nat.le_add_right _ _) h4,
         Nat.lt_of_le_of_lt (Nat.le_add_right _ _) h5⟩

/-- A sequence of non-overlapping handler calls with no wraparound adds
the per-call deltas exactly. -/
theorem handleSeq_no_wrap (engine : Engine)
    (reqs : List (String × String × AccessLevel)) :
    ∀ c : ServerCounts, (c.add (sumDeltas engine reqs)).inRange →
      handleSeq engine reqs c = c.add (sumDeltas engine reqs) := by
  induction reqs with
  | nil =>
    intro c _
    unfold handleSeq sumDeltas ServerCounts.add
    simp
  | cons rq rest ih =>
    intro c h
    have hsum : sumDeltas engine (rq :: rest) =
        (callDeltas engine rq).add (sumDeltas engine rest) := rfl
    rw [hsum] at h ⊢
    rw [← ServerCounts.add_assoc] at h ⊢
    have hstep : (handle_interpretation engine rq.1 rq.2.1 rq.2.2 c).2 =
        c.add (callDeltas engine rq) :=
      handle_interpretation_no_wrap engine rq.1 rq.2.1 rq.2.2 c
        (ServerCounts.inRange_of_add _ (sumDeltas engine rest) h)
    have hseq : handleSeq engine (rq :: rest) c =
        handleSeq engine rest
          ((handle_interpretation engine rq.1 rq.2.1 rq.2.2 c).2) := rfl
    rw [hseq, hstep]
    exact ih (c.add (callDeltas engine rq)) h

/-- C9 (amended): provided no `u64` counter wraps around — the initial
values plus the total per-call deltas stay below `2^64` — every ledger
counter after a sequence of non-overlapping `handle` calls equals its
initial value plus the sum of the non-negative per-call deltas (hence
every counter is non-decreasing, at every prefix by instantiation), and
from the zero-initialized ledger the final instructions-executed
counter equals the sum of the per-call instruction counts reported by
the engine. -/
theorem ledger_monotone_no_wrap (engine : Engine)
    (reqs : List (String × String × AccessLevel)) (c : ServerCounts)
    (hwrap : (c.add (sumDeltas engine reqs)).inRange) :
    handleSeq engine reqs c = c.add (sumDeltas engine reqs)
  ∧ c.le (handleSeq engine reqs c)
  ∧ (c = ServerCounts.new →
      (handleSeq engine reqs c).instructions =
        (sumDeltas engine reqs).instructions) := by
  have hmain := handleSeq_no_wrap engine reqs c hwrap
  refine ⟨hmain, ?_, ?_⟩
  · rw [hmain]
    exact ServerCounts.le_add c (sumDeltas engine reqs)
  · intro hc
    subst hc
    rw [hmain, ServerCounts.new_add]

/-- Witness for C9 (amended): two small concrete runs add up exactly. -/
theorem ledger_monotone_no_wrap_witness :
    handleSeq (constEngine 7 3) [("p", "x", .Basic), ("q", "y", .Developer)]
        ServerCounts.new =
      ServerCounts.new.add
        (sumDeltas (constEngine 7 3) [("p", "x", .Basic), ("q", "y", .Developer)])
  ∧ ServerCounts.new.le
      (handleSeq (constEngine 7 3) [("p", "x", .Basic), ("q", "y", .Developer)]
        ServerCounts.new)
  ∧ (ServerCounts.new = ServerCounts.new →
      (handleSeq (constEngine 7 3) [("p", "x", .Basic), ("q", "y", .Developer)]
          ServerCounts.new).instructions =
        (sumDeltas (constEngine 7 3)
          [("p", "x", .Basic), ("q", "y", .Developer)]).instructions) :=
  ledger_monotone_no_wrap (constEngine 7 3)
    [("p", "x", .Basic), ("q", "y", .Developer)] ServerCounts.new (by decide)

/-- C9 counterexample: with wrapping `u64` counters the claim as stated
fails. An Administrator-tier run may report up to `usize::MAX`
instructions; two calls each reporting `2^63` wrap the instructions
counter to 0, which is a strict decrease, and the final counter (0)
differs from the sum of the per-call counts (`2^64`). -/
theorem ledger_wraparound_counterexample :
    (handleSeq (constEngine (2 ^ 63) 0) [("", "", .Administrator)]
      ServerCounts.new).instructions = 2 ^ 63
  ∧ (handleSeq (constEngine (2 ^ 63) 0)
      [("", "", .Administrator), ("", "", .Administrator)]
      ServerCounts.new).instructions = 0
  ∧ ¬((handleSeq (constEngine (2 ^ 63) 0) [("", "", .Administrator)]
        ServerCounts.new).instructions ≤
      (handleSeq (constEngine (2 ^ 63) 0)
        [("", "", .Administrator), ("", "", .Administrator)]
        ServerCounts.new).instructions)
  ∧ (sumDeltas (constEngine (2 ^ 63) 0)
      [("", "", .Administrator), ("", "", .Administrator)]).instructions =
        2 ^ 64
  ∧ (handleSeq (constEngine (2 ^ 63) 0)
      [("", "", .Administrator), ("", "", .Administrator)]
      ServerCounts.new).instructions ≠
      (sumDeltas (constEngine (2 ^ 63) 0)
        [("", "", .Administrator), ("", "", .Administrator)]).instructions := by
  refine ⟨by decide, by decide, by decide, by decide, by decide⟩

end Brainfork
